import Mathlib

/-!
Shallow embedding of the drowsiness-detection server (`app.py`).

The global mutable state of the Flask application (`count`, `alarm_on`,
`detection_active`, the `stats` dict, the `email_config` dict, and the
`status1`/`status2` residual classification variables of `generate_frames`)
is collected into one record, `AppState`, and every operation of the program
becomes a pure state transformer on it.  The external collaborators are
inputs: the Haar-cascade detectors supply, per frame, a list of face
observations (each carrying the candidate eye boxes per side together with
the classifier label that `model.predict` + `np.argmax` would produce on
each box), and the Formspree HTTP round trip is an `HttpResult` value.
An extra counter `sos_calls` records, as an observable, each outbound
`requests.post` the program performs.
-/

/-- The `stats` dictionary of `app.py` (lines 38-43). -/
structure Stats where
  eyes_closed_count : Nat
  total_frames : Nat
  drowsiness_events : Nat
  alarm_triggered : Bool
deriving Repr, DecidableEq

/-- The `email_config` dictionary of `app.py` (lines 46-49). -/
structure EmailConfig where
  recipient_email : String
  email_sent : Bool
deriving Repr, DecidableEq

/-- Outcome of the outbound `requests.post` to Formspree: an HTTP status
code, or one of the two caught exception classes (timeout, network error). -/
inductive HttpResult where
  | status (code : Nat)
  | timeout
  | netError
deriving Repr, DecidableEq

/-- One candidate eye box returned by an eye cascade, abstracted to the two
facts the loop body consults: the pixel area of the cropped region
(`eye.size`) and the label `np.argmax(model.predict ...)` would yield on it. -/
structure EyeBox where
  size : Nat
  label : Nat
deriving Repr, DecidableEq

/-- One candidate face region, carrying the candidate eye boxes that the
left and right eye cascades return inside it. -/
structure FaceObs where
  leftBoxes : List EyeBox
  rightBoxes : List EyeBox
deriving Repr, DecidableEq

/-- The global mutable state of `app.py`, plus the residual `status1` /
`status2` locals of `generate_frames` and the `sos_calls` observable. -/
structure AppState where
  detection_active : Bool
  count : Nat
  alarm_on : Bool
  stats : Stats
  email_config : EmailConfig
  status1 : Nat
  status2 : Nat
  sos_calls : Nat
deriving Repr, DecidableEq

/-- The state at process start: counters zero, flags false, no recipient. -/
def initState : AppState :=
  { detection_active := false
    count := 0
    alarm_on := false
    stats := { eyes_closed_count := 0, total_frames := 0,
               drowsiness_events := 0, alarm_triggered := false }
    email_config := { recipient_email := "", email_sent := false }
    status1 := 0
    status2 := 0
    sos_calls := 0 }

/-- `send_sos_email` (lines 51-142): under `email_lock`, return early when no
recipient is configured or the email was already sent; otherwise perform the
`requests.post` (recorded in `sos_calls`) and set `email_sent := true`
exactly in the `status_code == 200` branch — the 422 branch, the generic
non-200 branch, and the timeout / network-error handlers all leave
`email_sent` untouched, and no retry is performed. -/
def send_sos_email (r : HttpResult) (s : AppState) : AppState :=
  if s.email_config.recipient_email = "" ∨ s.email_config.email_sent then s
  else
    let s1 : AppState := { s with sos_calls := s.sos_calls + 1 }
    match r with
    | HttpResult.status code =>
        if code = 200 then
          { s1 with email_config := { s1.email_config with email_sent := true } }
        else s1
    | HttpResult.timeout => s1
    | HttpResult.netError => s1

/-- `start_alarm` (lines 144-163): on a rising edge (`alarm_on` false) set
`alarm_triggered`, increment `drowsiness_events`, set `alarm_on`, and when
the current event count is at least 3 and the email was not yet sent, spawn
`send_sos_email`.  The spawned thread is linearised here: its body runs at
the spawn point with HTTP outcome `r`. -/
def start_alarm (r : HttpResult) (s : AppState) : AppState :=
  if s.alarm_on then s
  else
    let stats1 : Stats :=
      { s.stats with alarm_triggered := true
                     drowsiness_events := s.stats.drowsiness_events + 1 }
    let s1 : AppState := { s with stats := stats1, alarm_on := true }
    if 3 ≤ stats1.drowsiness_events ∧ s1.email_config.email_sent = false then
      send_sos_email r s1
    else s1

/-- Lines 224-246 of `generate_frames`: given the per-face verdict of the
`status1 == 2 and status2 == 2` test, either increment `count` and
`eyes_closed_count` and (at `count ≥ 5`, when `alarm_on` is still false)
fire `start_alarm`, or reset `count`, `alarm_on` and `alarm_triggered`. -/
def classifyStep (r : HttpResult) (closed : Bool) (s : AppState) : AppState :=
  if closed then
    let s1 : AppState :=
      { s with count := s.count + 1
               stats := { s.stats with
                          eyes_closed_count := s.stats.eyes_closed_count + 1 } }
    if 5 ≤ s1.count then
      if s1.alarm_on = false then start_alarm r s1 else s1
    else s1
  else
    { s with count := 0
             alarm_on := false
             stats := { s.stats with alarm_triggered := false } }

/-- The eye-box loops at lines 199-221: each `for` body ends in `break`, so
only the first candidate box is examined; its classification replaces the
residual status only when the crop has non-zero area (`eye.size > 0`). -/
def firstEyeStatus (boxes : List EyeBox) (residual : Nat) : Nat :=
  match boxes with
  | [] => residual
  | b :: _ => if 0 < b.size then b.label else residual

/-- The body of the `for (x, y, w, h) in faces` loop (lines 191-246):
resolve the two eye statuses from the first candidate box per side (falling
back to the residual values), then run the closed/open classification step. -/
def processFace (r : HttpResult) (s : AppState) (f : FaceObs) : AppState :=
  let st1 := firstEyeStatus f.leftBoxes s.status1
  let st2 := firstEyeStatus f.rightBoxes s.status2
  let s1 : AppState := { s with status1 := st1, status2 := st2 }
  classifyStep r (decide (st1 = 2 ∧ st2 = 2)) s1

/-- One iteration of the `while detection_active` loop of `generate_frames`
(lines 178-251): increment `total_frames`, then run the face loop over every
detected face (the face loop has no `break`, so all candidates are
processed in order). -/
def processFrame (r : HttpResult) (s : AppState) (faces : List FaceObs) : AppState :=
  let s1 : AppState :=
    { s with stats := { s.stats with total_frames := s.stats.total_frames + 1 } }
  faces.foldl (processFace r) s1

/-- The `/start` route `start_detection` (lines 266-286). -/
def start_detection (s : AppState) : AppState :=
  { s with detection_active := true
           count := 0
           alarm_on := false
           stats := { eyes_closed_count := 0, total_frames := 0,
                      drowsiness_events := 0, alarm_triggered := false }
           email_config := { s.email_config with email_sent := false } }

/-- The `/stop` route `stop_detection` (lines 288-296), projected to the
shared state it writes: it clears `detection_active` (the camera release is
outside the model). -/
def stop_detection (s : AppState) : AppState :=
  { s with detection_active := false }

/-- The POST `/sos/email` route `set_sos_email` (lines 308-319). -/
def set_sos_email (email : String) (s : AppState) : AppState :=
  { s with email_config := { s.email_config with recipient_email := email } }

/-- The GET `/sos/email` route `get_sos_email` (lines 321-325). -/
def get_sos_email (s : AppState) : String :=
  s.email_config.recipient_email

/-- The `/stats` route `get_stats` (lines 298-301). -/
def get_stats (s : AppState) : Stats :=
  s.stats

/-- A face observation on which both eye cascades return one non-degenerate
box and the classifier answers label 2 (closed) or 0 (open) on both sides,
so the per-frame "both eyes closed" verdict equals the boolean `b`. -/
def boolFace (b : Bool) : FaceObs :=
  if b then
    { leftBoxes := [{ size := 1, label := 2 }]
      rightBoxes := [{ size := 1, label := 2 }] }
  else
    { leftBoxes := [{ size := 1, label := 0 }]
      rightBoxes := [{ size := 1, label := 0 }] }

/-- Run the frame loop on a sequence of per-frame "both-eyes-closed" boolean
observations, one fully-observed single-face frame per boolean. -/
def runFrames (r : HttpResult) (s : AppState) (obs : List Bool) : AppState :=
  obs.foldl (fun st b => processFrame r st [boolFace b]) s

/-- Length of the trailing run of `true` in an observation sequence. -/
def trailingTrueRun (obs : List Bool) : Nat :=
  (obs.reverse.takeWhile (fun b => b)).length

/-- Number of rising edges in an observation sequence: the positions at
which the trailing run of `true` first reaches the threshold T = 5. -/
def risingEdgeCount (obs : List Bool) : Nat :=
  ((List.range obs.length).filter
    (fun i => trailingTrueRun (obs.take (i + 1)) = 5)).length

/-- Number of `true` observations in the sequence. -/
def countTrue (obs : List Bool) : Nat :=
  (obs.filter (fun b => b)).length

/-- A session-scoped operation other than `/start`: one iteration of the
frame loop, the `/stop` route, the POST `/sos/email` route, or the read-only
`/stats` route. -/
inductive SessionOp where
  | frame (r : HttpResult) (faces : List FaceObs)
  | stop
  | setEmail (a : String)
  | statsQuery
deriving Repr, DecidableEq

/-- Apply a session-scoped operation to the server state. -/
def applyOp (s : AppState) : SessionOp → AppState
  | SessionOp.frame r faces => processFrame r s faces
  | SessionOp.stop => stop_detection s
  | SessionOp.setEmail a => set_sos_email a s
  | SessionOp.statsQuery => s

/-- A session lifecycle operation: the `/start` or `/stop` route. -/
inductive LifecycleOp where
  | start
  | stop
deriving Repr, DecidableEq

/-- Apply a lifecycle operation to the server state. -/
def applyLifecycle (s : AppState) : LifecycleOp → AppState
  | LifecycleOp.start => start_detection s
  | LifecycleOp.stop => stop_detection s

/-- The shared memory touched by concurrent `send_sos_email` tasks: the
`email_config` dict plus the observable count of outbound POSTs. -/
structure SosShared where
  recipient_email : String
  email_sent : Bool
  sos_calls : Nat
deriving Repr, DecidableEq

/-- One atomic step of a `send_sos_email` task, at the granularity the locks
give the real code.  Program counters: 0 = the gate read under `email_lock`
(lines 55-60: return when no recipient or `email_sent` is already true),
1 = the `requests.post` performed outside any lock (lines 110-115, here
assumed to succeed with status 200), 2 = the `email_sent := true` write
under `email_lock` (lines 119-120), 3 = finished.  Each step returns the new
shared memory and the task's next program counter. -/
def sosTaskStep (sh : SosShared) (pc : Nat) : SosShared × Nat :=
  match pc with
  | 0 => if sh.recipient_email = "" ∨ sh.email_sent then (sh, 3) else (sh, 1)
  | 1 => ({ sh with sos_calls := sh.sos_calls + 1 }, 2)
  | 2 => ({ sh with email_sent := true }, 3)
  | _ => (sh, 3)

/-- Two concurrent `send_sos_email` tasks over the shared memory. -/
structure ConcState where
  shared : SosShared
  pc1 : Nat
  pc2 : Nat
deriving Repr, DecidableEq

/-- Run one atomic step of task 2 (`who = true`) or task 1 (`who = false`). -/
def schedStep (c : ConcState) (who : Bool) : ConcState :=
  if who then
    let p := sosTaskStep c.shared c.pc2
    { c with shared := p.1, pc2 := p.2 }
  else
    let p := sosTaskStep c.shared c.pc1
    { c with shared := p.1, pc1 := p.2 }

/-- Run a whole interleaving schedule. -/
def runSched (c : ConcState) (sched : List Bool) : ConcState :=
  sched.foldl schedStep c

/-- Both tasks about to enter `send_sos_email` at once: a recipient is
configured and the email was not yet sent. -/
def raceStart : ConcState :=
  { shared := { recipient_email := "driver@example.com", email_sent := false,
                sos_calls := 0 }
    pc1 := 0
    pc2 := 0 }

/-- A mid-session state on the verge of its third rising edge: a recipient
is configured, two drowsiness events have been recorded, and the SOS email
has not been sent. -/
def c3state : AppState :=
  { initState with
    alarm_on := false
    stats := { eyes_closed_count := 9, total_frames := 40,
               drowsiness_events := 2, alarm_triggered := false }
    email_config := { recipient_email := "driver@example.com",
                      email_sent := false } }

/-- A state with a configured recipient and the email not yet sent, as seen
by a freshly spawned `send_sos_email` task. -/
def c4state : AppState :=
  { initState with
    email_config := { recipient_email := "driver@example.com",
                      email_sent := false } }

/-! ### Component lemmas for `send_sos_email` -/

theorem send_sos_email_of_sent (r : HttpResult) (s : AppState)
    (h : s.email_config.email_sent = true) : send_sos_email r s = s := by
  unfold send_sos_email
  simp [h]

theorem send_sos_email_stats (r : HttpResult) (s : AppState) :
    (send_sos_email r s).stats = s.stats := by
  unfold send_sos_email
  split
  · rfl
  · rcases r with c | _ | _
    · by_cases hc : c = 200 <;> simp [hc]
    · rfl
    · rfl

theorem send_sos_email_count (r : HttpResult) (s : AppState) :
    (send_sos_email r s).count = s.count := by
  unfold send_sos_email
  split
  · rfl
  · rcases r with c | _ | _
    · by_cases hc : c = 200 <;> simp [hc]
    · rfl
    · rfl

theorem send_sos_email_alarm_on (r : HttpResult) (s : AppState) :
    (send_sos_email r s).alarm_on = s.alarm_on := by
  unfold send_sos_email
  split
  · rfl
  · rcases r with c | _ | _
    · by_cases hc : c = 200 <;> simp [hc]
    · rfl
    · rfl

theorem send_sos_email_status1 (r : HttpResult) (s : AppState) :
    (send_sos_email r s).status1 = s.status1 := by
  unfold send_sos_email
  split
  · rfl
  · rcases r with c | _ | _
    · by_cases hc : c = 200 <;> simp [hc]
    · rfl
    · rfl

theorem send_sos_email_status2 (r : HttpResult) (s : AppState) :
    (send_sos_email r s).status2 = s.status2 := by
  unfold send_sos_email
  split
  · rfl
  · rcases r with c | _ | _
    · by_cases hc : c = 200 <;> simp [hc]
    · rfl
    · rfl

theorem send_sos_email_recipient (r : HttpResult) (s : AppState) :
    (send_sos_email r s).email_config.recipient_email
      = s.email_config.recipient_email := by
  unfold send_sos_email
  split
  · rfl
  · rcases r with c | _ | _
    · by_cases hc : c = 200 <;> simp [hc]
    · rfl
    · rfl

theorem send_sos_email_sent_mono (r : HttpResult) (s : AppState) :
    s.email_config.email_sent ≤ (send_sos_email r s).email_config.email_sent := by
  cases h : s.email_config.email_sent with
  | false => exact Bool.false_le _
  | true => rw [send_sos_email_of_sent r s h, h]

/-! ### Component lemmas for `start_alarm` -/

theorem start_alarm_count (r : HttpResult) (s : AppState) :
    (start_alarm r s).count = s.count := by
  unfold start_alarm
  split
  · rfl
  · dsimp only
    split
    · rw [send_sos_email_count]
    · rfl

theorem start_alarm_alarm_on (r : HttpResult) (s : AppState) :
    (start_alarm r s).alarm_on = true := by
  unfold start_alarm
  split
  · assumption
  · dsimp only
    split
    · rw [send_sos_email_alarm_on]
    · rfl

theorem start_alarm_total_frames (r : HttpResult) (s : AppState) :
    (start_alarm r s).stats.total_frames = s.stats.total_frames := by
  unfold start_alarm
  split
  · rfl
  · dsimp only
    split
    · rw [send_sos_email_stats]
    · rfl

theorem start_alarm_eyes_closed (r : HttpResult) (s : AppState) :
    (start_alarm r s).stats.eyes_closed_count = s.stats.eyes_closed_count := by
  unfold start_alarm
  split
  · rfl
  · dsimp only
    split
    · rw [send_sos_email_stats]
    · rfl

theorem start_alarm_of_on (r : HttpResult) (s : AppState)
    (h : s.alarm_on = true) : start_alarm r s = s := by
  unfold start_alarm
  simp [h]

theorem start_alarm_events_of_off (r : HttpResult) (s : AppState)
    (h : s.alarm_on = false) :
    (start_alarm r s).stats.drowsiness_events
      = s.stats.drowsiness_events + 1 := by
  unfold start_alarm
  rw [if_neg (by simp [h])]
  dsimp only
  split
  · rw [send_sos_email_stats]
  · rfl

theorem start_alarm_triggered_of_off (r : HttpResult) (s : AppState)
    (h : s.alarm_on = false) :
    (start_alarm r s).stats.alarm_triggered = true := by
  unfold start_alarm
  rw [if_neg (by simp [h])]
  dsimp only
  split
  · rw [send_sos_email_stats]
  · rfl

theorem start_alarm_status1 (r : HttpResult) (s : AppState) :
    (start_alarm r s).status1 = s.status1 := by
  unfold start_alarm
  split
  · rfl
  · dsimp only
    split
    · rw [send_sos_email_status1]
    · rfl

theorem start_alarm_status2 (r : HttpResult) (s : AppState) :
    (start_alarm r s).status2 = s.status2 := by
  unfold start_alarm
  split
  · rfl
  · dsimp only
    split
    · rw [send_sos_email_status2]
    · rfl

theorem start_alarm_recipient (r : HttpResult) (s : AppState) :
    (start_alarm r s).email_config.recipient_email
      = s.email_config.recipient_email := by
  unfold start_alarm
  split
  · rfl
  · dsimp only
    split
    · rw [send_sos_email_recipient]
    · rfl

theorem start_alarm_sent_of_sent (r : HttpResult) (s : AppState)
    (h : s.email_config.email_sent = true) :
    (start_alarm r s).email_config.email_sent = true := by
  unfold start_alarm
  split
  · exact h
  · dsimp only
    rw [if_neg (by simp [h])]
    exact h

theorem start_alarm_sent_mono (r : HttpResult) (s : AppState) :
    s.email_config.email_sent ≤ (start_alarm r s).email_config.email_sent := by
  cases h : s.email_config.email_sent with
  | false => exact Bool.false_le _
  | true => rw [start_alarm_sent_of_sent r s h]

/-! ### Component lemmas for `classifyStep` -/

theorem classifyStep_false (r : HttpResult) (s : AppState) :
    classifyStep r false s
      = { s with count := 0
                 alarm_on := false
                 stats := { s.stats with alarm_triggered := false } } := rfl

theorem classifyStep_true_count (r : HttpResult) (s : AppState) :
    (classifyStep r true s).count = s.count + 1 := by
  unfold classifyStep
  rw [if_pos rfl]
  dsimp only
  split
  · split
    · rw [start_alarm_count]
    · rfl
  · rfl

theorem classifyStep_true_total_frames (r : HttpResult) (s : AppState) :
    (classifyStep r true s).stats.total_frames = s.stats.total_frames := by
  unfold classifyStep
  rw [if_pos rfl]
  dsimp only
  split
  · split
    · rw [start_alarm_total_frames]
    · rfl
  · rfl

theorem classifyStep_true_eyes (r : HttpResult) (s : AppState) :
    (classifyStep r true s).stats.eyes_closed_count
      = s.stats.eyes_closed_count + 1 := by
  unfold classifyStep
  rw [if_pos rfl]
  dsimp only
  split
  · split
    · rw [start_alarm_eyes_closed]
    · rfl
  · rfl

theorem classifyStep_true_status1 (r : HttpResult) (s : AppState) :
    (classifyStep r true s).status1 = s.status1 := by
  unfold classifyStep
  rw [if_pos rfl]
  dsimp only
  split
  · split
    · rw [start_alarm_status1]
    · rfl
  · rfl

theorem classifyStep_true_status2 (r : HttpResult) (s : AppState) :
    (classifyStep r true s).status2 = s.status2 := by
  unfold classifyStep
  rw [if_pos rfl]
  dsimp only
  split
  · split
    · rw [start_alarm_status2]
    · rfl
  · rfl

theorem classifyStep_true_alarm_on (r : HttpResult) (s : AppState) :
    (classifyStep r true s).alarm_on
      = (s.alarm_on || decide (5 ≤ s.count + 1)) := by
  unfold classifyStep
  rw [if_pos rfl]
  dsimp only
  by_cases h5 : 5 ≤ s.count + 1
  · rw [if_pos h5]
    by_cases ha : s.alarm_on = false
    · rw [if_pos ha, start_alarm_alarm_on, ha]
      simp [h5]
    · rw [if_neg ha]
      simp at ha
      simp [ha]
  · rw [if_neg h5]
    simp [h5]

theorem classifyStep_true_events (r : HttpResult) (s : AppState) :
    (classifyStep r true s).stats.drowsiness_events
      = s.stats.drowsiness_events
        + (if 5 ≤ s.count + 1 ∧ s.alarm_on = false then 1 else 0) := by
  unfold classifyStep
  rw [if_pos rfl]
  dsimp only
  by_cases h5 : 5 ≤ s.count + 1
  · rw [if_pos h5]
    by_cases ha : s.alarm_on = false
    · rw [if_pos ha, start_alarm_events_of_off r _ (by exact ha)]
      simp [h5, ha]
    · rw [if_neg ha]
      simp [h5, ha]
  · rw [if_neg h5]
    simp [h5]

theorem classifyStep_true_triggered (r : HttpResult) (s : AppState) :
    (classifyStep r true s).stats.alarm_triggered
      = if 5 ≤ s.count + 1 ∧ s.alarm_on = false then true
        else s.stats.alarm_triggered := by
  unfold classifyStep
  rw [if_pos rfl]
  dsimp only
  by_cases h5 : 5 ≤ s.count + 1
  · rw [if_pos h5]
    by_cases ha : s.alarm_on = false
    · rw [if_pos ha, start_alarm_triggered_of_off r _ (by exact ha)]
      simp [h5, ha]
    · rw [if_neg ha]
      simp [h5, ha]
  · rw [if_neg h5]
    simp [h5]

theorem classifyStep_sent_mono (r : HttpResult) (b : Bool) (s : AppState) :
    s.email_config.email_sent ≤ (classifyStep r b s).email_config.email_sent := by
  cases b with
  | false => rw [classifyStep_false]
  | true =>
      unfold classifyStep
      rw [if_pos rfl]
      dsimp only
      split
      · split
        · refine le_trans ?_ (start_alarm_sent_mono r _)
          exact le_of_eq rfl
        · exact le_refl _
      · exact le_refl _

theorem classifyStep_recipient (r : HttpResult) (b : Bool) (s : AppState) :
    (classifyStep r b s).email_config.recipient_email
      = s.email_config.recipient_email := by
  cases b with
  | false => rw [classifyStep_false]
  | true =>
      unfold classifyStep
      rw [if_pos rfl]
      dsimp only
      split
      · split
        · rw [start_alarm_recipient]
        · rfl
      · rfl

/-! ### Lemmas for `processFace` and single-face boolean frames -/

theorem processFace_count_le (r : HttpResult) (s : AppState) (f : FaceObs) :
    (processFace r s f).count ≤ s.count + 1 := by
  unfold processFace
  dsimp only
  cases hb : decide (firstEyeStatus f.leftBoxes s.status1 = 2
      ∧ firstEyeStatus f.rightBoxes s.status2 = 2) with
  | false =>
      rw [classifyStep_false]
      exact Nat.zero_le _
  | true =>
      rw [classifyStep_true_count]

theorem processFace_eyes_le (r : HttpResult) (s : AppState) (f : FaceObs) :
    (processFace r s f).stats.eyes_closed_count
      ≤ s.stats.eyes_closed_count + 1 := by
  unfold processFace
  dsimp only
  cases hb : decide (firstEyeStatus f.leftBoxes s.status1 = 2
      ∧ firstEyeStatus f.rightBoxes s.status2 = 2) with
  | false =>
      rw [classifyStep_false]
      exact Nat.le_succ _
  | true =>
      rw [classifyStep_true_eyes]

theorem processFrame_boolFace (r : HttpResult) (t : AppState) (b : Bool) :
    processFrame r t [boolFace b]
      = classifyStep r b
          { t with stats := { t.stats with
                              total_frames := t.stats.total_frames + 1 }
                   status1 := if b then 2 else 0
                   status2 := if b then 2 else 0 } := by
  cases b <;> rfl

theorem boolFrame_false (r : HttpResult) (t : AppState) :
    processFrame r t [boolFace false]
      = { t with count := 0
                 alarm_on := false
                 stats := { t.stats with
                            total_frames := t.stats.total_frames + 1
                            alarm_triggered := false }
                 status1 := 0
                 status2 := 0 } := by
  rw [processFrame_boolFace, classifyStep_false]
  rfl

theorem boolFrame_true_count (r : HttpResult) (t : AppState) :
    (processFrame r t [boolFace true]).count = t.count + 1 := by
  rw [processFrame_boolFace, classifyStep_true_count]

theorem boolFrame_true_total_frames (r : HttpResult) (t : AppState) :
    (processFrame r t [boolFace true]).stats.total_frames
      = t.stats.total_frames + 1 := by
  rw [processFrame_boolFace, classifyStep_true_total_frames]

theorem boolFrame_true_eyes (r : HttpResult) (t : AppState) :
    (processFrame r t [boolFace true]).stats.eyes_closed_count
      = t.stats.eyes_closed_count + 1 := by
  rw [processFrame_boolFace, classifyStep_true_eyes]

theorem boolFrame_true_alarm_on (r : HttpResult) (t : AppState) :
    (processFrame r t [boolFace true]).alarm_on
      = (t.alarm_on || decide (5 ≤ t.count + 1)) := by
  rw [processFrame_boolFace, classifyStep_true_alarm_on]

theorem boolFrame_true_events (r : HttpResult) (t : AppState) :
    (processFrame r t [boolFace true]).stats.drowsiness_events
      = t.stats.drowsiness_events
        + (if 5 ≤ t.count + 1 ∧ t.alarm_on = false then 1 else 0) := by
  rw [processFrame_boolFace, classifyStep_true_events]

theorem boolFrame_true_triggered (r : HttpResult) (t : AppState) :
    (processFrame r t [boolFace true]).stats.alarm_triggered
      = if 5 ≤ t.count + 1 ∧ t.alarm_on = false then true
        else t.stats.alarm_triggered := by
  rw [processFrame_boolFace, classifyStep_true_triggered]

/-! ### Lemmas about the specification-side sequence functions -/

theorem trailingTrueRun_nil : trailingTrueRun [] = 0 := rfl

theorem trailingTrueRun_append_singleton (l : List Bool) (b : Bool) :
    trailingTrueRun (l ++ [b])
      = if b then trailingTrueRun l + 1 else 0 := by
  unfold trailingTrueRun
  rw [List.reverse_append]
  cases b <;> simp [List.takeWhile_cons]

theorem countTrue_nil : countTrue [] = 0 := rfl

theorem countTrue_append_singleton (l : List Bool) (b : Bool) :
    countTrue (l ++ [b]) = countTrue l + if b then 1 else 0 := by
  unfold countTrue
  rw [List.filter_append]
  cases b <;> simp

theorem risingEdgeCount_nil : risingEdgeCount [] = 0 := rfl

theorem risingEdgeCount_append_singleton (l : List Bool) (b : Bool) :
    risingEdgeCount (l ++ [b])
      = risingEdgeCount l
        + (if trailingTrueRun (l ++ [b]) = 5 then 1 else 0) := by
  unfold risingEdgeCount
  rw [List.length_append]
  show (List.filter _ (List.range (l.length + 1))).length = _
  rw [List.range_succ, List.filter_append, List.length_append]
  congr 1
  · apply congrArg List.length
    apply List.filter_congr
    intro i hi
    rw [List.mem_range] at hi
    rw [List.take_append_of_le_length (by omega)]
  · rw [List.filter_singleton]
    have htake : (l ++ [b]).take (l.length + 1) = l ++ [b] :=
      List.take_of_length_le (by simp)
    rw [htake]
    by_cases h : trailingTrueRun (l ++ [b]) = 5 <;> simp [h]

theorem runFrames_append_singleton (r : HttpResult) (s : AppState)
    (obs : List Bool) (b : Bool) :
    runFrames r s (obs ++ [b])
      = processFrame r (runFrames r s obs) [boolFace b] := by
  unfold runFrames
  rw [List.foldl_append]
  rfl

/-- Core invariant of the frame loop on boolean observation sequences,
starting from a freshly started session: `count` is the trailing run of
closed frames, the alarm flags are set exactly while that run is ≥ 5,
`drowsiness_events` counts the rising edges, `eyes_closed_count` counts the
closed frames, and `total_frames` counts all frames. -/
theorem runFrames_start_spec (r : HttpResult) (s : AppState) (obs : List Bool) :
    (runFrames r (start_detection s) obs).count = trailingTrueRun obs ∧
    ((runFrames r (start_detection s) obs).alarm_on = true
      ↔ 5 ≤ trailingTrueRun obs) ∧
    ((runFrames r (start_detection s) obs).stats.alarm_triggered = true
      ↔ 5 ≤ trailingTrueRun obs) ∧
    (runFrames r (start_detection s) obs).stats.drowsiness_events
      = risingEdgeCount obs ∧
    (runFrames r (start_detection s) obs).stats.eyes_closed_count
      = countTrue obs ∧
    (runFrames r (start_detection s) obs).stats.total_frames = obs.length := by
  induction obs using List.reverseRecOn with
  | nil =>
      refine ⟨rfl, ?_, ?_, rfl, rfl, rfl⟩ <;>
        simp [runFrames, start_detection, trailingTrueRun]
  | append_singleton l b ih =>
      obtain ⟨hc, ha, ht, he, hy, hf⟩ := ih
      rw [runFrames_append_singleton]
      cases b with
      | false =>
          rw [boolFrame_false]
          refine ⟨?_, ?_, ?_, ?_, ?_, ?_⟩
          · simp [trailingTrueRun_append_singleton]
          · simp [trailingTrueRun_append_singleton]
          · simp [trailingTrueRun_append_singleton]
          · rw [risingEdgeCount_append_singleton, trailingTrueRun_append_singleton]
            simpa using he
          · rw [countTrue_append_singleton]
            simpa using hy
          · rw [List.length_append]
            simpa using hf
      | true =>
          have htr : trailingTrueRun (l ++ [true]) = trailingTrueRun l + 1 := by
            rw [trailingTrueRun_append_singleton]
            simp
          refine ⟨?_, ?_, ?_, ?_, ?_, ?_⟩
          · rw [boolFrame_true_count, hc, htr]
          · rw [boolFrame_true_alarm_on, hc, htr]
            simp only [Bool.or_eq_true, decide_eq_true_eq, ha]
            omega
          · rw [boolFrame_true_triggered, hc, htr]
            by_cases hA : (runFrames r (start_detection s) l).alarm_on = false
            · rw [hA] at ha
              simp only [Bool.false_eq_true, false_iff, not_le] at ha
              by_cases h5 : 5 ≤ trailingTrueRun l + 1
              · rw [if_pos ⟨h5, hA⟩]
                simp [h5]
              · rw [if_neg (fun hx => h5 hx.1)]
                rw [ht]
                omega
            · have hA2 : (runFrames r (start_detection s) l).alarm_on = true := by
                revert hA
                cases (runFrames r (start_detection s) l).alarm_on <;> simp
              rw [hA2] at ha
              simp only [true_iff] at ha
              rw [if_neg (fun hx => hA hx.2)]
              rw [ht]
              omega
          · rw [boolFrame_true_events, hc, risingEdgeCount_append_singleton, htr, he]
            by_cases hA : (runFrames r (start_detection s) l).alarm_on = false
            · rw [hA] at ha
              simp only [Bool.false_eq_true, false_iff, not_le] at ha
              by_cases h5 : 5 ≤ trailingTrueRun l + 1
              · rw [if_pos ⟨h5, hA⟩, if_pos (by omega)]
              · rw [if_neg (fun hx => h5 hx.1), if_neg (by omega)]
            · have hA2 : (runFrames r (start_detection s) l).alarm_on = true := by
                revert hA
                cases (runFrames r (start_detection s) l).alarm_on <;> simp
              rw [hA2] at ha
              simp only [true_iff] at ha
              rw [if_neg (fun hx => hA hx.2), if_neg (by omega)]
          · rw [boolFrame_true_eyes, hy, countTrue_append_singleton]
            simp
          · rw [boolFrame_true_total_frames, hf, List.length_append]
            simp

/-! ### Fold bounds and monotonicity through the face loop -/

theorem foldl_processFace_count_le (r : HttpResult) (faces : List FaceObs) :
    ∀ s : AppState,
      (faces.foldl (processFace r) s).count ≤ s.count + faces.length := by
  induction faces with
  | nil =>
      intro s
      simp
  | cons a l ih =>
      intro s
      have h1 := ih (processFace r s a)
      have h2 := processFace_count_le r s a
      simp only [List.foldl_cons, List.length_cons]
      omega

theorem foldl_processFace_eyes_le (r : HttpResult) (faces : List FaceObs) :
    ∀ s : AppState,
      (faces.foldl (processFace r) s).stats.eyes_closed_count
        ≤ s.stats.eyes_closed_count + faces.length := by
  induction faces with
  | nil =>
      intro s
      simp
  | cons a l ih =>
      intro s
      have h1 := ih (processFace r s a)
      have h2 := processFace_eyes_le r s a
      simp only [List.foldl_cons, List.length_cons]
      omega

theorem processFrame_count_le (r : HttpResult) (s : AppState)
    (faces : List FaceObs) :
    (processFrame r s faces).count ≤ s.count + faces.length := by
  unfold processFrame
  dsimp only
  exact foldl_processFace_count_le r faces _

theorem processFrame_eyes_le (r : HttpResult) (s : AppState)
    (faces : List FaceObs) :
    (processFrame r s faces).stats.eyes_closed_count
      ≤ s.stats.eyes_closed_count + faces.length := by
  unfold processFrame
  dsimp only
  exact foldl_processFace_eyes_le r faces _

theorem processFace_sent_mono (r : HttpResult) (s : AppState) (f : FaceObs) :
    s.email_config.email_sent ≤ (processFace r s f).email_config.email_sent := by
  unfold processFace
  dsimp only
  refine le_trans ?_ (classifyStep_sent_mono r _ _)
  exact le_of_eq rfl

theorem foldl_processFace_sent_mono (r : HttpResult) (faces : List FaceObs) :
    ∀ s : AppState,
      s.email_config.email_sent
        ≤ (faces.foldl (processFace r) s).email_config.email_sent := by
  induction faces with
  | nil =>
      intro s
      exact le_refl _
  | cons a l ih =>
      intro s
      simp only [List.foldl_cons]
      exact le_trans (processFace_sent_mono r s a) (ih _)

theorem processFrame_sent_mono (r : HttpResult) (s : AppState)
    (faces : List FaceObs) :
    s.email_config.email_sent
      ≤ (processFrame r s faces).email_config.email_sent := by
  unfold processFrame
  dsimp only
  refine le_trans ?_ (foldl_processFace_sent_mono r faces _)
  exact le_of_eq rfl

theorem applyOp_sent_mono (s : AppState) (op : SessionOp) :
    s.email_config.email_sent ≤ (applyOp s op).email_config.email_sent := by
  cases op with
  | frame r faces => exact processFrame_sent_mono r s faces
  | stop => exact le_refl _
  | setEmail a => exact le_refl _
  | statsQuery => exact le_refl _

theorem applyLifecycle_recipient (s : AppState) (op : LifecycleOp) :
    (applyLifecycle s op).email_config.recipient_email
      = s.email_config.recipient_email := by
  cases op <;> rfl

theorem foldl_applyLifecycle_recipient (ops : List LifecycleOp) :
    ∀ s : AppState,
      (ops.foldl applyLifecycle s).email_config.recipient_email
        = s.email_config.recipient_email := by
  induction ops with
  | nil =>
      intro s
      rfl
  | cons a l ih =>
      intro s
      rw [List.foldl_cons, ih, applyLifecycle_recipient]

theorem firstEyeStatus_take_one (boxes : List EyeBox) (residual : Nat) :
    firstEyeStatus (boxes.take 1) residual = firstEyeStatus boxes residual := by
  cases boxes <;> rfl

/-! ### Characterisation of `processFace` and the dispatch gate -/

theorem processFace_status1 (r : HttpResult) (s : AppState) (f : FaceObs) :
    (processFace r s f).status1 = firstEyeStatus f.leftBoxes s.status1 := by
  unfold processFace
  dsimp only
  cases hb : decide (firstEyeStatus f.leftBoxes s.status1 = 2
      ∧ firstEyeStatus f.rightBoxes s.status2 = 2) with
  | false =>
      rw [classifyStep_false]
  | true =>
      rw [classifyStep_true_status1]

theorem processFace_status2 (r : HttpResult) (s : AppState) (f : FaceObs) :
    (processFace r s f).status2 = firstEyeStatus f.rightBoxes s.status2 := by
  unfold processFace
  dsimp only
  cases hb : decide (firstEyeStatus f.leftBoxes s.status1 = 2
      ∧ firstEyeStatus f.rightBoxes s.status2 = 2) with
  | false =>
      rw [classifyStep_false]
  | true =>
      rw [classifyStep_true_status2]

theorem processFace_count_eq (r : HttpResult) (s : AppState) (f : FaceObs) :
    (processFace r s f).count
      = if firstEyeStatus f.leftBoxes s.status1 = 2
           ∧ firstEyeStatus f.rightBoxes s.status2 = 2
        then s.count + 1 else 0 := by
  unfold processFace
  dsimp only
  by_cases h : (firstEyeStatus f.leftBoxes s.status1 = 2
      ∧ firstEyeStatus f.rightBoxes s.status2 = 2)
  · rw [decide_eq_true h, classifyStep_true_count, if_pos h]
  · rw [decide_eq_false h, classifyStep_false, if_neg h]

theorem start_alarm_sos_calls_off (r : HttpResult) (s : AppState)
    (h : s.alarm_on = false) :
    (start_alarm r s).sos_calls
      = s.sos_calls
        + (if s.email_config.recipient_email ≠ ""
              ∧ 3 ≤ s.stats.drowsiness_events + 1
              ∧ s.email_config.email_sent = false
           then 1 else 0) := by
  unfold start_alarm
  rw [if_neg (by simp [h])]
  dsimp only
  split
  case isTrue hcond =>
    have hd1 : 3 ≤ s.stats.drowsiness_events + 1 := hcond.1
    have hd2 : s.email_config.email_sent = false := hcond.2
    unfold send_sos_email
    split
    case isTrue hguard =>
      have hr : s.email_config.recipient_email = "" := by
        rcases hguard with h1 | h2
        · exact h1
        · rw [hd2] at h2
          exact absurd h2 (by decide)
      rw [if_neg (fun hx => hx.1 hr)]
      rfl
    case isFalse hguard =>
      have hr : s.email_config.recipient_email ≠ "" :=
        fun hx => hguard (Or.inl hx)
      rw [if_pos ⟨hr, hd1, hd2⟩]
      rcases r with c | _ | _
      · dsimp only
        split <;> rfl
      · rfl
      · rfl
  case isFalse hcond =>
    rw [if_neg (fun hx => hcond ⟨hx.2.1, hx.2.2⟩)]
    rfl

/-! ### Claim theorems -/

/-- Claim C1: for every finite sequence of per-frame "both-eyes-closed"
boolean observations processed by the frame loop, the consecutive-closure
counter `count` after frame i equals the length of the trailing run of
`true` observations ending at frame i: a closed frame increments it by one
and an open frame resets it to 0. -/
theorem consecutive_counter_is_trailing_run (r : HttpResult)
    (s t : AppState) (obs : List Bool) :
    (runFrames r (start_detection s) obs).count = trailingTrueRun obs ∧
    (processFrame r t [boolFace true]).count = t.count + 1 ∧
    (processFrame r t [boolFace false]).count = 0 :=
  ⟨(runFrames_start_spec r s obs).1, boolFrame_true_count r t,
    by rw [boolFrame_false]⟩

/-- Claim C2: from a fresh session, the rising edge into the alarm fires
exactly once per crossing of the threshold T = 5 consecutive closed frames:
`drowsiness_events` equals the number of rising edges, the alarm-active
flags are true exactly while the trailing closed run is at least 5 (so
further closed frames while the alarm is active do not fire the edge
again), and `eyes_closed_count` keeps counting every closed frame. -/
theorem rising_edge_event_accounting (r : HttpResult) (s : AppState)
    (obs : List Bool) :
    (runFrames r (start_detection s) obs).stats.drowsiness_events
      = risingEdgeCount obs ∧
    ((runFrames r (start_detection s) obs).stats.alarm_triggered = true
      ↔ 5 ≤ trailingTrueRun obs) ∧
    ((runFrames r (start_detection s) obs).alarm_on = true
      ↔ 5 ≤ trailingTrueRun obs) ∧
    (runFrames r (start_detection s) obs).stats.eyes_closed_count
      = countTrue obs :=
  ⟨(runFrames_start_spec r s obs).2.2.2.1,
    (runFrames_start_spec r s obs).2.2.1,
    (runFrames_start_spec r s obs).2.1,
    (runFrames_start_spec r s obs).2.2.2.2.1⟩

/-- Claim C3: on a rising edge, the dispatch path performs the outbound SOS
call if and only if a recipient is configured, the event count (after the
edge's increment) is at least 3, and the sent flag is false; moreover the
sent flag never reverts from true to false under any session-scoped
operation, and only a session start resets it to false. -/
theorem sos_dispatch_gate (r : HttpResult) (s : AppState) (op : SessionOp)
    (h : s.alarm_on = false) :
    ((start_alarm r s).sos_calls = s.sos_calls + 1
      ↔ (s.email_config.recipient_email ≠ ""
          ∧ 3 ≤ s.stats.drowsiness_events + 1
          ∧ s.email_config.email_sent = false)) ∧
    s.email_config.email_sent ≤ (applyOp s op).email_config.email_sent ∧
    (start_detection s).email_config.email_sent = false := by
  refine ⟨?_, applyOp_sent_mono s op, rfl⟩
  rw [start_alarm_sos_calls_off r s h]
  by_cases hg : (s.email_config.recipient_email ≠ ""
      ∧ 3 ≤ s.stats.drowsiness_events + 1
      ∧ s.email_config.email_sent = false)
  · rw [if_pos hg]
    simp [hg]
  · rw [if_neg hg]
    constructor
    · intro hx
      exact absurd hx (by omega)
    · intro hx
      exact absurd hx hg

/-- Claim C3 witness: a concrete state with the alarm off, a recipient
configured, two prior events and the email unsent; the gate is open. -/
theorem sos_dispatch_gate_witness :
    c3state.alarm_on = false ∧
    ((start_alarm (HttpResult.status 200) c3state).sos_calls
        = c3state.sos_calls + 1
      ↔ (c3state.email_config.recipient_email ≠ ""
          ∧ 3 ≤ c3state.stats.drowsiness_events + 1
          ∧ c3state.email_config.email_sent = false)) :=
  ⟨rfl, (sos_dispatch_gate (HttpResult.status 200) c3state
          SessionOp.stop rfl).1⟩

/-- Claim C4 counterexample: HTTP status 201 is a 2xx success, the outbound
call is performed, and yet `email_sent` stays false, because the code tests
`status_code == 200` only — refuting "sent is set exactly when the call
succeeded with any 2xx status". -/
theorem sos_2xx_status_leaves_sent_false :
    (send_sos_email (HttpResult.status 201) c4state).sos_calls
      = c4state.sos_calls + 1 ∧
    200 ≤ 201 ∧ 201 < 300 ∧
    (send_sos_email (HttpResult.status 201) c4state).email_config.email_sent
      = false := by decide

/-- Claim C4 (amended): after a dispatch attempt with a configured recipient
and the sent flag false, exactly one outbound call is made, and the sent
flag becomes true if and only if the HTTP response status is exactly 200;
on timeout, network error, or any other status (including other 2xx codes)
it stays false and no retry is made within the attempt. -/
theorem sos_send_sets_sent_iff_200 (r : HttpResult) (s : AppState)
    (hr : s.email_config.recipient_email ≠ "")
    (hs : s.email_config.email_sent = false) :
    (send_sos_email r s).sos_calls = s.sos_calls + 1 ∧
    ((send_sos_email r s).email_config.email_sent = true
      ↔ r = HttpResult.status 200) := by
  unfold send_sos_email
  rw [if_neg (fun hx => hx.elim hr
        (fun h2 => by rw [hs] at h2; exact absurd h2 (by decide)))]
  rcases r with c | _ | _
  · dsimp only
    by_cases hc : c = 200
    · rw [if_pos hc]
      subst hc
      exact ⟨rfl, by simp⟩
    · rw [if_neg hc]
      exact ⟨rfl, by simp [hs, hc]⟩
  · exact ⟨rfl, by simp [hs]⟩
  · exact ⟨rfl, by simp [hs]⟩

/-- Claim C4 witness: with a recipient configured and the flag unsent, a
status-200 response sets the sent flag. -/
theorem sos_send_sets_sent_iff_200_witness :
    c4state.email_config.recipient_email ≠ "" ∧
    c4state.email_config.email_sent = false ∧
    (send_sos_email (HttpResult.status 200) c4state).email_config.email_sent
      = true :=
  ⟨by decide, rfl,
    (sos_send_sets_sent_iff_200 (HttpResult.status 200) c4state
        (by decide) rfl).2.mpr rfl⟩

/-- Claim C5 counterexample: the face loop has no break, so with two
detected faces both classified closed, a single frame raises `count` from 0
to 2 — refuting "the counters change by at most one per frame". -/
theorem two_faces_double_count :
    (start_detection initState).count = 0 ∧
    (processFrame HttpResult.timeout (start_detection initState)
        [boolFace true, boolFace true]).count = 2 ∧
    ¬((processFrame HttpResult.timeout (start_detection initState)
          [boolFace true, boolFace true]).count
        ≤ (start_detection initState).count + 1) := by decide

/-- Claim C5 (amended): the pipeline processes every detected face region in
order — only the first detected eye box per side within each face — so the
consecutive-closure counter and `eyes_closed_count` change by at most the
number of detected faces per frame; when no face is detected the frame
changes no state beyond the frame counter. -/
theorem face_loop_bounds (r : HttpResult) (s : AppState)
    (faces : List FaceObs) (f : FaceObs) :
    processFrame r s []
      = { s with stats := { s.stats with
                            total_frames := s.stats.total_frames + 1 } } ∧
    (processFrame r s faces).count ≤ s.count + faces.length ∧
    (processFrame r s faces).stats.eyes_closed_count
      ≤ s.stats.eyes_closed_count + faces.length ∧
    processFace r s f
      = processFace r s { leftBoxes := f.leftBoxes.take 1
                          rightBoxes := f.rightBoxes.take 1 } := by
  refine ⟨rfl, processFrame_count_le r s faces,
          processFrame_eyes_le r s faces, ?_⟩
  unfold processFace
  dsimp only
  rw [firstEyeStatus_take_one, firstEyeStatus_take_one]

/-- Claim C6: an absent eye box or a zero-area first eye box leaves the
residual status of the previous iteration in place (no forced reset of the
counter), `processFace` resolves each side through `firstEyeStatus`, and a
frame counts as "both eyes closed" (incrementing `count`) exactly when both
resolved labels equal the closed label 2; otherwise `count` resets to 0. -/
theorem eye_fallback_residual (r : HttpResult) (s : AppState) (f : FaceObs)
    (lab : Nat) (bs : List EyeBox) :
    firstEyeStatus [] s.status1 = s.status1 ∧
    firstEyeStatus ({ size := 0, label := lab } :: bs) s.status1
      = s.status1 ∧
    firstEyeStatus [] s.status2 = s.status2 ∧
    firstEyeStatus ({ size := 0, label := lab } :: bs) s.status2
      = s.status2 ∧
    (processFace r s f).status1 = firstEyeStatus f.leftBoxes s.status1 ∧
    (processFace r s f).status2 = firstEyeStatus f.rightBoxes s.status2 ∧
    ((processFace r s f).count = s.count + 1
      ↔ (firstEyeStatus f.leftBoxes s.status1 = 2
          ∧ firstEyeStatus f.rightBoxes s.status2 = 2)) ∧
    ((processFace r s f).count = 0
      ↔ ¬(firstEyeStatus f.leftBoxes s.status1 = 2
          ∧ firstEyeStatus f.rightBoxes s.status2 = 2)) := by
  refine ⟨rfl, by simp [firstEyeStatus], rfl, by simp [firstEyeStatus],
          processFace_status1 r s f, processFace_status2 r s f, ?_, ?_⟩
  · rw [processFace_count_eq]
    by_cases hb : (firstEyeStatus f.leftBoxes s.status1 = 2
        ∧ firstEyeStatus f.rightBoxes s.status2 = 2)
    · simp [hb]
    · simp [hb]
  · rw [processFace_count_eq]
    by_cases hb : (firstEyeStatus f.leftBoxes s.status1 = 2
        ∧ firstEyeStatus f.rightBoxes s.status2 = 2)
    · simp [hb]
    · simp [hb]

/-- Claim C7: the start-session operation resets the four stats fields to
(0, 0, 0, false), the notification sent flag to false, the
consecutive-closure counter to 0, and clears the alarm-active state. -/
theorem session_start_resets (s : AppState) :
    (start_detection s).stats
      = { eyes_closed_count := 0, total_frames := 0,
          drowsiness_events := 0, alarm_triggered := false } ∧
    (start_detection s).email_config.email_sent = false ∧
    (start_detection s).count = 0 ∧
    (start_detection s).alarm_on = false :=
  ⟨rfl, rfl, rfl, rfl⟩

/-- Claim C8: from a fresh session, the observation sequence closed ×5 then
open yields one drowsiness event and an active alarm after frame 5, and a
cleared alarm with `eyes_closed_count` 5 after the open frame 6 — whatever
the outcome of any HTTP dispatch would be. -/
theorem scenario_five_closed_then_open (r : HttpResult) :
    (runFrames r (start_detection initState)
        [true, true, true, true, true]).stats.drowsiness_events = 1 ∧
    (runFrames r (start_detection initState)
        [true, true, true, true, true]).stats.alarm_triggered = true ∧
    (runFrames r (start_detection initState)
        [true, true, true, true, true, false]).stats.alarm_triggered
      = false ∧
    (runFrames r (start_detection initState)
        [true, true, true, true, true, false]).stats.eyes_closed_count
      = 5 := by
  refine ⟨?_, ?_, ?_, ?_⟩
  · rw [(runFrames_start_spec r initState [true, true, true, true, true]).2.2.2.1]
    decide
  · exact (runFrames_start_spec r initState
      [true, true, true, true, true]).2.2.1.mpr (by decide)
  · have hiff := (runFrames_start_spec r initState
      [true, true, true, true, true, false]).2.2.1
    cases hb : (runFrames r (start_detection initState)
        [true, true, true, true, true, false]).stats.alarm_triggered
    · rfl
    · exact absurd (hiff.mp hb) (by decide)
  · rw [(runFrames_start_spec r initState
      [true, true, true, true, true, false]).2.2.2.2.1]
    decide

/-- Claim C9: the check-and-set of the sent flag is not atomic — the gate
read, the POST, and the flag write are three separate atomic regions — so
two concurrent `send_sos_email` tasks can interleave as gate₁, gate₂,
post₁, set₁, post₂, set₂ and both pass the gate: the session records two
outbound POSTs. -/
theorem sos_gate_race_two_sends :
    (runSched raceStart
        [false, true, false, false, true, true]).shared.sos_calls = 2 ∧
    (runSched raceStart
        [false, true, false, false, true, true]).shared.email_sent = true ∧
    (runSched raceStart [false, true, false, false, true, true]).pc1 = 3 ∧
    (runSched raceStart [false, true, false, false, true, true]).pc2 = 3 := by
  decide

/-- Claim C10: the configured recipient address is not session-scoped: after
setting it, any number of session starts and stops leaves the value returned
by the get-recipient operation unchanged. -/
theorem recipient_not_session_scoped (s : AppState) (a : String)
    (ops : List LifecycleOp) :
    get_sos_email (set_sos_email a s) = a ∧
    get_sos_email (ops.foldl applyLifecycle (set_sos_email a s)) = a := by
  refine ⟨rfl, ?_⟩
  unfold get_sos_email
  rw [foldl_applyLifecycle_recipient]
  rfl
